import Mathlib

/-!
Verification development for the session-orchestration backend
(`backend/services/context_manager.py`, `backend/services/callback_registry.py`,
`backend/agents/supervisor.py`, `backend/agents/subagents/interviewer.py`,
`backend/agents/subagents/chat.py`, `backend/api/websocket.py`).

The Python code is embedded shallowly: external capabilities (the tokenizer,
the text-generation backend, JSON parsing) are function parameters, mutable
per-session caches become explicit state records, and Python truthiness and
`or` are modelled by explicit helper functions.  All arithmetic on token
budgets is over `Int`, matching Python's unbounded signed integers.
-/

namespace Backend

/-- Truthiness of a Python value that is either `None` or a string:
`None` and `""` are falsy. -/
def optTruthy : Option String → Bool
  | none => false
  | some s => s ≠ ""

/-- Python `a or b` for optional strings: returns `a` when truthy, else `b`. -/
def pyOr (a b : Option String) : Option String :=
  if optTruthy a then a else b

/-- Python `a or b` where `a` is an optional list parameter and `b` the
fallback: `None` and `[]` are falsy. -/
def listOr {α : Type} (a : Option (List α)) (b : List α) : List α :=
  match a with
  | none => b
  | some l => if l.isEmpty then b else l

/-- First occurrence split: `splitFirst pat s = some (pre, post)` when `pat`
occurs in `s`, with `s = pre ++ pat ++ post` at the first occurrence.
Models `str.find`/first regex match position. -/
def splitFirst (pat : List Char) : List Char → Option (List Char × List Char)
  | [] => if pat.isEmpty then some ([], []) else none
  | c :: rest =>
    if pat.isPrefixOf (c :: rest) then
      some ([], (c :: rest).drop pat.length)
    else
      match splitFirst pat rest with
      | some (pre, post) => some (c :: pre, post)
      | none => none

/-- Python `pat in s` for strings (substring containment). -/
def pyIn (pat s : String) : Bool :=
  (splitFirst pat.data s.data).isSome

/-- Python `str.strip()` on a character list. -/
def stripChars (cs : List Char) : List Char :=
  ((cs.dropWhile Char.isWhitespace).reverse.dropWhile Char.isWhitespace).reverse

/-- Python `str.strip()`. -/
def pyStrip (s : String) : String :=
  String.mk (stripChars s.data)

/-- Truthiness of `s.strip()`: the string has a non-whitespace character. -/
def hasNonWs (s : String) : Bool :=
  s.data.any (fun c => !c.isWhitespace)

/-- Split a string at every occurrence of a separator (Python `str.split(sep)`
for a non-empty separator), with explicit fuel for termination. -/
def splitAllAux (pat : List Char) : Nat → List Char → List (List Char)
  | 0, s => [s]
  | fuel + 1, s =>
    match splitFirst pat s with
    | none => [s]
    | some (pre, post) => pre :: splitAllAux pat fuel post

/-- Python `s.split(sep)` for a non-empty `sep`. -/
def pySplit (s sep : String) : List String :=
  (splitAllAux sep.data (s.data.length + 1) s.data).map String.mk

/-- Python `sep.join(parts)`. -/
def pyJoin (sep : String) : List String → String
  | [] => ""
  | [p] => p
  | p :: rest => p ++ sep ++ pyJoin sep rest

/-- Concatenation of a chunk list (the `full_content += chunk` accumulator). -/
def concatChunks (chunks : List String) : String :=
  chunks.foldl (fun acc c => acc ++ c) ""

/- ================= Context manager (backend/services/context_manager.py) -/

/-- `TokenBudget` dataclass, with the source defaults. -/
structure TokenBudget where
  total : Int := 16000
  system_prompt : Int := 1000
  jd_max : Int := 4000
  resume_max : Int := 4000
  summary_max : Int := 1000
  history_min : Int := 2000
  current_input : Int := 500
deriving DecidableEq, Repr

/-- `Message` dataclass of the context manager (one ledger turn). -/
structure Message where
  role : String
  content : String
  token_count : Nat := 0
  message_type : Option String := none
deriving DecidableEq, Repr

/-- The injected token-accounting capability: `count(text) -> int` and
`truncate(text, max) -> text` (`llm_service.count_tokens` /
`llm_service.truncate_text` are external to the core). -/
structure TokenCap where
  count : String → Nat
  truncate : String → Int → String

/-- `ContextManager._count_tokens`: `if not text: return 0` then the
capability count. -/
def count_tokens (cap : TokenCap) (text : String) : Nat :=
  if text = "" then 0 else cap.count text

/-- Token usage breakdown reported by `build_context` (the `token_usage`
dict; every key below is always assigned). -/
structure TokenUsage where
  system_prompt : Int
  current_input : Int
  jd : Int
  resume : Int
  summary : Int
  history : Int
deriving DecidableEq, Repr

/-- The `truncated` dict of `build_context`: `jd` and `resume` keys are set
only when the corresponding document is present; `history` is always set;
no `summary` key is ever written. -/
structure TruncatedFlags where
  jd : Option Bool
  resume : Option Bool
  history : Bool
deriving DecidableEq, Repr

/-- `ContextResult` dataclass. -/
structure ContextResult where
  messages : List (String × String)
  jd_text : String
  resume_text : String
  summary : Option String
  history_messages : List Message
  token_usage : TokenUsage
  truncated : TruncatedFlags
deriving DecidableEq, Repr

/-- `ContextManager` instance state: configuration plus the per-session
caches `_session_summaries` and `_session_history` (dicts keyed by session
id, modelled as unique-key association lists). -/
structure ContextManager where
  budget : TokenBudget := {}
  max_history_rounds : Nat := 10
  summary_trigger_rounds : Nat := 10
  session_summaries : List (String × String) := []
  session_history : List (String × List Message) := []
deriving DecidableEq, Repr

/-- Dict lookup `d.get(k)`. -/
def dictGet {α : Type} (d : List (String × α)) (k : String) : Option α :=
  match d.find? (fun e => e.1 = k) with
  | some e => some e.2
  | none => none

/-- Dict update `d[k] = v` (keeps keys unique). -/
def dictSet {α : Type} (d : List (String × α)) (k : String) (v : α) :
    List (String × α) :=
  (k, v) :: d.filter (fun e => e.1 ≠ k)

/-- Dict deletion `del d[k]` / `d.pop(k, None)`. -/
def dictDel {α : Type} (d : List (String × α)) (k : String) :
    List (String × α) :=
  d.filter (fun e => e.1 ≠ k)

/-- Python `xs[:-k]` for `k : Nat` (empty when `k = 0`, since `xs[:0] = []`). -/
def pyDropLast {α : Type} (xs : List α) (k : Nat) : List α :=
  if k = 0 then [] else xs.take (xs.length - k)

/-- Python `xs[-k:]` for `k : Nat` (the whole list when `k = 0`). -/
def pyTakeLast {α : Type} (xs : List α) (k : Nat) : List α :=
  if k = 0 then xs else xs.drop (xs.length - k)

/-- `ContextManager._smart_truncate_jd` / `_smart_truncate_resume` inner
loop: accumulate paragraphs while they fit, then possibly one truncated
tail paragraph, then `break`. -/
def truncLoop (cap : TokenCap) (maxTokens : Int) :
    List String → Int → List String
  | [], _ => []
  | p :: rest, current =>
    let pTokens : Int := (count_tokens cap p : Int)
    if current + pTokens ≤ maxTokens then
      p :: truncLoop cap maxTokens rest (current + pTokens)
    else
      let remaining := maxTokens - current
      if remaining > 100 then [cap.truncate p remaining] else []

/-- `ContextManager._smart_truncate_jd`: keyword-prioritised paragraph
selection under a token cap. -/
def smart_truncate_jd (cap : TokenCap) (jd_text : String) (maxTokens : Int) :
    String :=
  if (count_tokens cap jd_text : Int) ≤ maxTokens then jd_text
  else
    let paragraphs := pySplit jd_text "\n\n"
    let kws := ["职责", "要求", "技能", "经验", "学历", "能力", "负责"]
    let prioritized := paragraphs.filter (fun p => kws.any (fun kw => pyIn kw p))
    let other := paragraphs.filter (fun p => !kws.any (fun kw => pyIn kw p))
    pyJoin "\n\n" (truncLoop cap maxTokens (prioritized ++ other) 0)

/-- `ContextManager._smart_truncate_resume`: same loop with the resume
keyword set. -/
def smart_truncate_resume (cap : TokenCap) (resume_text : String)
    (maxTokens : Int) : String :=
  if (count_tokens cap resume_text : Int) ≤ maxTokens then resume_text
  else
    let paragraphs := pySplit resume_text "\n\n"
    let kws := ["工作", "项目", "经历", "技能", "教育", "经验", "负责"]
    let prioritized := paragraphs.filter (fun p => kws.any (fun kw => pyIn kw p))
    let other := paragraphs.filter (fun p => !kws.any (fun kw => pyIn kw p))
    pyJoin "\n\n" (truncLoop cap maxTokens (prioritized ++ other) 0)

/-- Token count used by `_fit_history`: `msg.token_count or count(content)`
(Python `or`: a zero stored count falls back to recounting). -/
def msgTokens (cap : TokenCap) (m : Message) : Int :=
  if m.token_count ≠ 0 then (m.token_count : Int)
  else (count_tokens cap m.content : Int)

/-- `ContextManager._fit_history` loop over the reversed history: keep
newest-first while the running total fits, `break` otherwise.  The first
list argument is the reversed history (newest first); the result list is
rebuilt in chronological order. -/
def fitRev (cap : TokenCap) (maxTokens : Int) :
    List Message → Int → List Message × Int
  | [], total => ([], total)
  | m :: rest, total =>
    let t := msgTokens cap m
    if total + t ≤ maxTokens then
      ((fitRev cap maxTokens rest (total + t)).1 ++ [m],
       (fitRev cap maxTokens rest (total + t)).2)
    else ([], total)

/-- `ContextManager._fit_history`. -/
def fit_history (cap : TokenCap) (history : List Message) (maxTokens : Int) :
    List Message × Int :=
  if history.isEmpty then ([], 0)
  else fitRev cap maxTokens history.reverse 0

/-- `ContextManager._build_messages`. -/
def build_messages (system_prompt jd_text resume_text : String)
    (summary : Option String) (history : List Message) (user_input : String) :
    List (String × String) :=
  let enhanced :=
    if jd_text ≠ "" ∨ resume_text ≠ "" ∨ optTruthy summary then
      system_prompt ++ "\n\n## 背景信息\n"
        ++ (if jd_text ≠ "" then "\n### 目标职位要求\n" ++ jd_text ++ "\n" else "")
        ++ (if resume_text ≠ "" then "\n### 用户简历\n" ++ resume_text ++ "\n" else "")
        ++ (match summary with
            | some s => if s ≠ "" then "\n### 之前的对话摘要\n" ++ s ++ "\n" else ""
            | none => "")
    else system_prompt
  ("system", enhanced) :: history.map (fun m => (m.role, m.content))
    ++ [("user", user_input)]

/-- Result of one `build_context` call: the `ContextResult`, the updated
manager state (the summary cache may gain an entry), and how many
summarization calls (`_generate_summary`, i.e. one text-generation request)
were made during the call. -/
structure BuildOutput where
  result : ContextResult
  state : ContextManager
  summary_calls : Nat
deriving Repr

/-- One background-document allocation block of `build_context` (the JD
block and the resume block are textually identical in the source up to the
configured cap, the keyword-aware truncator and the flag key).  Returns
`(processed text, reported tokens, truncation flag, new available)`;
`none` for the flag models a document that is absent/empty, for which no
`truncated` key is written. -/
def document_step (cap : TokenCap) (cfg_max : Int)
    (smart : String → Int → String) (doc : Option String) (available : Int) :
    String × Int × Option Bool × Int :=
  match doc with
  | some d =>
    if d ≠ "" then
      let dmax := min cfg_max available
      let pf :=
        if (count_tokens cap d : Int) > dmax then (smart d dmax, true)
        else (d, false)
      let tok : Int := (count_tokens cap pf.1 : Int)
      (pf.1, tok, some pf.2, available - tok)
    else ("", 0, none, available)
  | none => ("", 0, none, available)

/-- The summarization trigger block of `build_context`: when the ledger
exceeds the round threshold and no truthy summary exists, and the overflow
prefix is non-empty, call the summarization capability once and cache its
result.  Returns `(summary, new summary cache, number of calls)`. -/
def summary_trigger (summarize : List Message → String) (cm : ContextManager)
    (session_id : String) (history_messages : List Message)
    (summary0 : Option String) :
    Option String × List (String × String) × Nat :=
  if history_messages.length / 2 > cm.summary_trigger_rounds
      ∧ ¬ optTruthy summary0 then
    let old := pyDropLast history_messages (cm.max_history_rounds * 2)
    if ¬ old.isEmpty then
      let s := summarize old
      (some s, dictSet cm.session_summaries session_id s, 1)
    else (summary0, cm.session_summaries, 0)
  else (summary0, cm.session_summaries, 0)

/-- The summary allocation block of `build_context`: a truthy summary is
charged against `min(summary_max, available)` (generic truncation, no
keyword preference and no truncation flag).  Returns
`(processed summary, reported tokens, new available)`. -/
def summary_alloc (cap : TokenCap) (summary_max_cfg : Int)
    (summary1 : Option String) (available : Int) :
    Option String × Int × Int :=
  if optTruthy summary1 then
    let sVal := summary1.getD ""
    let smax := min summary_max_cfg available
    let processed :=
      if (count_tokens cap sVal : Int) > smax then cap.truncate sVal smax
      else sVal
    let tok : Int := (count_tokens cap processed : Int)
    (some processed, tok, available - tok)
  else (none, 0, available)

/-- `ContextManager.build_context`.  `summarize` is the composite capability
behind `_generate_summary` (text generation over the overflow prefix,
already degraded to `""` on failure, as `_generate_summary` catches
exceptions and returns `""`). -/
def build_context (cap : TokenCap) (summarize : List Message → String)
    (cm : ContextManager) (session_id system_prompt user_input : String)
    (jd_text resume_text : Option String)
    (history : Option (List Message)) (existing_summary : Option String) :
    BuildOutput :=
  let system_tokens : Int := (count_tokens cap system_prompt : Int)
  let input_tokens : Int := (count_tokens cap user_input : Int)
  let available0 : Int := cm.budget.total - system_tokens - input_tokens
  -- JD (highest priority), then resume (second priority)
  let jdS := document_step cap cm.budget.jd_max (smart_truncate_jd cap)
    jd_text available0
  let resS := document_step cap cm.budget.resume_max
    (smart_truncate_resume cap) resume_text jdS.2.2.2
  -- summary and history
  let history_messages :=
    listOr history ((dictGet cm.session_history session_id).getD [])
  let summary0 := pyOr existing_summary (dictGet cm.session_summaries session_id)
  let trig := summary_trigger summarize cm session_id history_messages summary0
  let sumS := summary_alloc cap cm.budget.summary_max trig.1 resS.2.2.2
  let recent_history := pyTakeLast history_messages (cm.max_history_rounds * 2)
  let history_max := max cm.budget.history_min sumS.2.2
  let fitted := fit_history cap recent_history history_max
  { result :=
      { messages := build_messages system_prompt jdS.1 resS.1
          sumS.1 fitted.1 user_input
        jd_text := jdS.1
        resume_text := resS.1
        summary := sumS.1
        history_messages := fitted.1
        token_usage :=
          { system_prompt := system_tokens
            current_input := input_tokens
            jd := jdS.2.1
            resume := resS.2.1
            summary := sumS.2.1
            history := fitted.2 }
        truncated :=
          { jd := jdS.2.2.1
            resume := resS.2.2.1
            history := fitted.1.length < recent_history.length } }
    state := { cm with session_summaries := trig.2.1 }
    summary_calls := trig.2.2 }

/-- Sum of the six per-component counts reported in `token_usage`. -/
def usageSum (u : TokenUsage) : Int :=
  u.system_prompt + u.current_input + u.jd + u.resume + u.summary + u.history

/- ================= Agent state (backend/agents/state.py, as used) -/

/-- Structured critique parsed by
`InterviewerSubAgent._parse_xml_feedback`. -/
structure Feedback where
  analysis : String
  strengths : String
  improvements : String
  encouragement : String
  raw_content : String
deriving DecidableEq, Repr

/-- The LangGraph state dict, restricted to the fields the embedded
functions read or write.  Optional fields model keys that may be absent or
`None`. -/
structure AgentState where
  session_id : Option String := none
  project_id : Option String := none
  user_input : String := ""
  input_type : String := "text"
  current_mode : String := "idle"
  current_question : Option String := none
  audio_data : Option String := none
  intent : Option String := none
  extracted_question : Option String := none
  next_agent : String := "supervisor"
  response_text : Option String := none
  response_type : String := "message"
  stream_enabled : Bool := false
  save_asset : Bool := false
  transcript : Option String := none
  feedback : Option Feedback := none
  resume_text : Option String := none
  jd_text : Option String := none
deriving DecidableEq, Repr

/- ================= Intent router (backend/agents/supervisor.py) -/

/-- The structured classifier reply (the JSON object produced by the
routing LLM); `none` fields model absent keys. -/
structure RoutingResult where
  intent : Option String := none
  next_agent : Option String := none
  extracted_question : Option String := none
  response : Option String := none
deriving DecidableEq, Repr

/-- Fence stripping in `SupervisorAgent._analyze_intent` before
`json.loads`: strip, drop a leading ```` ```json ```` or ```` ``` ````,
drop a trailing ```` ``` ````, strip again. -/
def stripFences (s : String) : String :=
  let t := stripChars s.data
  let t := if ("```json".data).isPrefixOf t then t.drop 7 else t
  let t := if ("```".data).isPrefixOf t then t.drop 3 else t
  let t := if ("```".data).isSuffixOf t then t.take (t.length - 3) else t
  String.mk (stripChars t)

/-- The default routing returned when `json.loads` raises
`JSONDecodeError`. -/
def fallbackRouting : RoutingResult :=
  { intent := some "general"
    next_agent := some "chat"
    extracted_question := none
    response := none }

/-- `SupervisorAgent._analyze_intent`, given the raw classifier reply and
the JSON-parsing capability `parse` (`json.loads` restricted to routing
objects; `none` models a `JSONDecodeError`). -/
def analyze_intent (parse : String → Option RoutingResult)
    (response : String) : RoutingResult :=
  match parse (stripFences response) with
  | some r => r
  | none => fallbackRouting

/-- `SupervisorAgent.route`.  `llm` is the classifier text-generation
capability (`Except.error` models a raised exception, caught by `route`'s
fallback branch).  The returned `Nat` counts classifier invocations
(`_analyze_intent` calls, i.e. text-generation requests) made during
routing. -/
def route (llm : Except Unit String) (parse : String → Option RoutingResult)
    (st : AgentState) : AgentState × Nat :=
  if st.input_type = "audio" then
    ({ st with next_agent := "interviewer", current_mode := "interviewing" }, 0)
  else if st.current_mode = "interviewing" ∧ optTruthy st.current_question then
    ({ st with next_agent := "interviewer" }, 0)
  else
    match llm with
    | .error _ => ({ st with next_agent := "chat", current_mode := "chatting" }, 1)
    | .ok response =>
      let r := analyze_intent parse response
      let na := r.next_agent.getD "end"
      let st1 := { st with
        next_agent := na
        intent := some (r.intent.getD "general")
        extracted_question := r.extracted_question }
      let st2 :=
        if na = "end" ∧ optTruthy r.response then
          { st1 with response_text := r.response, response_type := "message" }
        else st1
      let st3 :=
        if na = "interviewer" then
          let stm := { st2 with current_mode := "interviewing" }
          if optTruthy r.extracted_question then
            { stm with current_question := r.extracted_question }
          else stm
        else if na = "chat" then { st2 with current_mode := "chatting" }
        else st2
      (st3, 1)

/- ========== Guided-practice generator (backend/agents/subagents/interviewer.py) -/

/-- Events pushed through the callback registry by the guided-practice
flow, in invocation order. -/
inductive Ev where
  | transcription
  | feedbackStart
  | feedbackChunk (content : String)
  | feedbackEnd
deriving DecidableEq, Repr

/-- First-match tag extraction, the semantics of
`re.search(r'<tag>(.*?)</tag>', text)` with `group(1).strip()`:
content between the first opening tag and the first closing tag after it. -/
def extractBetween (openTag closeTag s : String) : Option String :=
  match splitFirst openTag.data s.data with
  | none => none
  | some (_, rest) =>
    match splitFirst closeTag.data rest with
    | none => none
    | some (content, _) => some (String.mk (stripChars content))

/-- `InterviewerSubAgent._parse_xml_feedback`: each missing tag leaves the
corresponding field as the empty string; parsing never fails. -/
def parse_xml_feedback (response : String) : Feedback :=
  { analysis := (extractBetween "<analysis>" "</analysis>" response).getD ""
    strengths := (extractBetween "<strengths>" "</strengths>" response).getD ""
    improvements :=
      (extractBetween "<improvements>" "</improvements>" response).getD ""
    encouragement :=
      (extractBetween "<encouragement>" "</encouragement>" response).getD ""
    raw_content := response }

/-- `InterviewerSubAgent._analyze_answer`, returning the callback events it
emits (in order) and the parsed critique.  `chunks` is the critique
stream from the text-generation capability; when `session_id` is falsy the
non-streaming branch runs and emits no events (its reply is the same text,
delivered unstreamed). -/
def analyze_answer (session_id : Option String) (chunks : List String) :
    List Ev × Feedback :=
  let full := concatChunks chunks
  if optTruthy session_id then
    ([Ev.feedbackStart] ++ chunks.map Ev.feedbackChunk ++ [Ev.feedbackEnd],
     parse_xml_feedback full)
  else ([], parse_xml_feedback full)

/-- `InterviewerSubAgent._process_audio`, given the transcription
capability's result (`transcript`; `""` models "no transcript text") and
the critique stream.  Returns the callback events emitted (in order) and
the resulting state.  Database writes (AudioFile, Asset) are external
side effects with no bearing on the returned state's routed fields. -/
def process_audio (st : AgentState) (transcript : String)
    (chunks : List String) : List Ev × AgentState :=
  if ¬ optTruthy st.current_question then
    ([], { st with
      response_text := some "请先选择要练习的问题。"
      response_type := "error"
      next_agent := "end" })
  else if transcript = "" then
    ([], { st with
      response_text := some "未能识别到语音内容，请重新录音。"
      response_type := "error"
      next_agent := "end" })
  else
    let (evs, fb) := analyze_answer st.session_id chunks
    ([Ev.transcription] ++ evs,
     { st with
        transcript := some transcript
        feedback := some fb
        response_text := some fb.raw_content
        response_type := "feedback"
        current_question := none
        audio_data := none
        current_mode := "idle"
        next_agent := "end" })

/-- Pending-question update in `process_and_respond`
(`backend/api/websocket.py`):
`new_question = result.get("current_question") or cq`. -/
def new_question_update (result_cq cq : Option String) : Option String :=
  if optTruthy result_cq then result_cq else cq

/- ========== Advisory generator (backend/agents/subagents/chat.py) -/

/-- `extract_optimized_answer`: first try the `<optimized>` pair, and only
if it does not match, the `<script>` pair. -/
def extract_optimized_answer (content : String) : Option String :=
  match extractBetween "<optimized>" "</optimized>" content with
  | some s => some s
  | none => extractBetween "<script>" "</script>" content

/-- `ChatSubAgent.process` (no LLM call; sets streaming flags).  Reads
`state.get("intent", "interview_chat")`, validates it against the fixed
intent list, and marks the output save-eligible exactly for
`answer_optimization` and `script_writing`. -/
def chat_process (st : AgentState) : AgentState :=
  let intent0 := st.intent.getD "interview_chat"
  let valid := ["answer_optimization", "question_research",
                "resume_optimization", "script_writing", "interview_chat"]
  let intent1 := if intent0 ∈ valid then intent0 else "interview_chat"
  if intent1 = "resume_optimization" ∧ ¬ optTruthy st.resume_text then
    { st with
      response_text :=
        some "请先上传你的简历，我才能帮你进行优化。你可以在项目设置中上传简历文件。"
      response_type := "message"
      next_agent := "end"
      stream_enabled := false
      save_asset := false
      intent := some intent1 }
  else
    { st with
      response_text := some ""
      response_type := "stream_message"
      next_agent := "end"
      stream_enabled := true
      save_asset := intent1 = "answer_optimization" ∨ intent1 = "script_writing"
      intent := some intent1 }

/- ========== Streaming controller (backend/api/websocket.py) -/

/-- The pending-save payload handed back to the client for confirmation. -/
structure PendingSave where
  question : String
  transcript : String
  project_id : String
deriving DecidableEq, Repr

/-- Observable outcome of one `handle_stream_response` call: the content of
the assistant `Message` row it commits (if any), the `partial_content` of a
`generation_cancelled` frame (if one is sent), the `pending_save` payload
of the `stream_end` frame (if one is sent), and the Python return value. -/
structure HandleStreamOut where
  saved_message : Option String
  cancelled_payload : Option String
  pending_save : Option PendingSave
  returned : Bool
deriving DecidableEq, Repr

/-- The chunk-consumption loop of `handle_stream_response`: before
appending each arriving chunk the cancellation flag is checked; on a set
flag the loop breaks.  `k` is the number of chunks after whose append the
flag reads set (the flag, once set, stays set for the rest of the turn).
Returns the accumulated `full_content` and the `cancelled` boolean. -/
def streamLoop : List String → Nat → String → String × Bool
  | [], _, acc => (acc, false)
  | _ :: _, 0, acc => (acc, true)
  | c :: cs, k + 1, acc => streamLoop cs k (acc ++ c)

/-- `handle_stream_response` on the flag-cancellation and
normal-completion paths (the `asyncio.CancelledError` pre-emption path is
the caller tearing the task down; the flag path is the one driven by the
per-session cancel flag).  On cancellation the partial content is
committed only when it has a non-whitespace character
(`if full_content.strip():`), the `generation_cancelled` frame always
carries the full accumulated text, and no pending-save payload is
computed.  On completion a pending save is produced only when
`save_asset` is set, a project id is present, extraction succeeds with a
truthy answer, and an extracted question is present. -/
def handle_stream_response (chunks : List String) (k : Nat)
    (save_asset : Bool) (project_id : Option String)
    (extracted_question : Option String) : HandleStreamOut :=
  let r := streamLoop chunks k ""
  let full := r.1
  let cancelled := r.2
  if cancelled then
    { saved_message := if hasNonWs full then some full else none
      cancelled_payload := some full
      pending_save := none
      returned := false }
  else
    let pending :=
      if save_asset ∧ optTruthy project_id then
        match extract_optimized_answer full with
        | some ans =>
          if ans ≠ "" ∧ optTruthy extracted_question then
            some { question := extracted_question.getD ""
                   transcript := ans
                   project_id := project_id.getD "" }
          else none
        | none => none
      else none
    { saved_message := some full
      cancelled_payload := none
      pending_save := pending
      returned := true }

/- ========== Event relay (backend/services/callback_registry.py) -/

/-- The global callback table `_callbacks : session_id -> name -> handler`,
modelled as a unique-key association list; `α` is the handler type. -/
def Registry (α : Type) : Type := List (String × List (String × α))

/-- `register_callback`. -/
def register_callback {α : Type} (reg : Registry α) (session_id name : String)
    (cb : α) : Registry α :=
  let inner := (dictGet reg session_id).getD []
  dictSet reg session_id (dictSet inner name cb)

/-- `unregister_callback`: with a truthy `name`, remove that single entry;
with `None` (or `""`, both falsy), remove every callback of the session.
A session absent from the table is left untouched. -/
def unregister_callback {α : Type} (reg : Registry α) (session_id : String)
    (name : Option String) : Registry α :=
  if (dictGet reg session_id).isSome then
    if optTruthy name then
      dictSet reg session_id
        (dictDel ((dictGet reg session_id).getD []) (name.getD ""))
    else dictDel reg session_id
  else reg

/-- `get_callback`. -/
def get_callback {α : Type} (reg : Registry α) (session_id name : String) :
    Option α :=
  dictGet ((dictGet reg session_id).getD []) name

/-- A handler invocation: `Except.error` models the handler raising. -/
def Handler (π : Type) : Type := π → Except String Unit

/-- `invoke_callback`: no handler is a no-op returning `False`; a raising
handler is caught, logged and reported as `False`; a completing handler
yields `True`.  No exception ever escapes this function (it is total and
returns a `Bool`). -/
def invoke_callback {π : Type} (reg : Registry (Handler π))
    (session_id name : String) (payload : π) : Bool :=
  match get_callback reg session_id name with
  | none => false
  | some cb =>
    match cb payload with
    | .ok _ => true
    | .error _ => false

/-- Turn outcomes of `process_and_respond` in
`backend/api/websocket.py`. -/
inductive TurnOutcome where
  | completed
  | raised
  | cancelled
deriving DecidableEq, Repr

/-- The callback-registry effect of one `process_and_respond` call: it
registers the four turn handlers at the start, runs the body (which never
writes the registry), and its `finally` block unconditionally runs
`unregister_callback(session_id)` — on normal return, on a raised
exception, and on `asyncio.CancelledError` alike. -/
def process_and_respond_registry {α : Type} (reg : Registry α)
    (session_id : String) (cbT cbS cbC cbE : α) (outcome : TurnOutcome) :
    Registry α :=
  let reg := register_callback reg session_id "on_transcription" cbT
  let reg := register_callback reg session_id "on_feedback_stream_start" cbS
  let reg := register_callback reg session_id "on_feedback_chunk" cbC
  let reg := register_callback reg session_id "on_feedback_stream_end" cbE
  match outcome with
  | _ => unregister_callback reg session_id none

/- ================= Helper lemmas ================= -/

/-- The `_fit_history` loop never reports more tokens than the larger of
the cap and the running total it started from. -/
theorem fitRev_le (cap : TokenCap) (maxT : Int) :
    ∀ (rev : List Message) (total : Int),
      (fitRev cap maxT rev total).2 ≤ max maxT total := by
  intro rev
  induction rev with
  | nil => intro total; simp [fitRev]
  | cons m rest ih =>
    intro total
    simp only [fitRev]
    split_ifs with h
    · have h2 := ih (total + msgTokens cap m)
      omega
    · simp

/-- `_fit_history` reports at most `max maxTokens 0` tokens. -/
theorem fit_history_le (cap : TokenCap) (history : List Message)
    (maxTokens : Int) : (fit_history cap history maxTokens).2 ≤ max maxTokens 0 := by
  unfold fit_history
  split_ifs with h
  · simp
  · have h2 := fitRev_le cap maxTokens history.reverse 0
    omega

/-- `concatChunks` over a cons. -/
theorem concatChunks_cons (c : String) (cs : List String) :
    concatChunks (c :: cs) = c ++ concatChunks cs := by
  have key : ∀ (l : List String) (acc : String),
      l.foldl (fun a b => a ++ b) acc = acc ++ concatChunks l := by
    intro l
    induction l with
    | nil => intro acc; simp [concatChunks]
    | cons x xs ih =>
      intro acc
      simp only [concatChunks, List.foldl_cons] at *
      rw [ih (acc ++ x), ih ("" ++ x)]
      simp [String.append_assoc]
  simp only [concatChunks, List.foldl_cons]
  rw [key cs ("" ++ c)]
  simp [concatChunks]

/-- The stream loop under a flag that reads set after `k` appends, when the
generator still has a `(k+1)`-st chunk: it stops with exactly the first `k`
chunks accumulated and reports cancellation. -/
theorem streamLoop_cancelled :
    ∀ (chunks : List String) (k : Nat) (acc : String), k < chunks.length →
      streamLoop chunks k acc = (acc ++ concatChunks (chunks.take k), true) := by
  intro chunks
  induction chunks with
  | nil => intro k acc h; simp at h
  | cons c cs ih =>
    intro k acc h
    match k with
    | 0 => simp [streamLoop, concatChunks]
    | k + 1 =>
      have h2 : k < cs.length := by simpa using h
      simp only [streamLoop, List.take_succ_cons]
      rw [ih k (acc ++ c) h2, concatChunks_cons]
      simp [String.append_assoc]

/-- The stream loop when the flag never reads set before the generator is
exhausted: everything is accumulated and no cancellation is reported. -/
theorem streamLoop_completed :
    ∀ (chunks : List String) (k : Nat) (acc : String), chunks.length ≤ k →
      streamLoop chunks k acc = (acc ++ concatChunks chunks, false) := by
  intro chunks
  induction chunks with
  | nil => intro k acc _; simp [streamLoop, concatChunks]
  | cons c cs ih =>
    intro k acc h
    match k with
    | 0 => simp at h
    | k + 1 =>
      have h2 : cs.length ≤ k := by simpa using h
      simp only [streamLoop]
      rw [ih k (acc ++ c) h2, concatChunks_cons]
      simp [String.append_assoc]

/-- Looking up the key just written. -/
theorem dictGet_set_self {α : Type} (d : List (String × α)) (k : String)
    (v : α) : dictGet (dictSet d k v) k = some v := by
  simp [dictGet, dictSet]

/-- Looking up a deleted key. -/
theorem dictGet_del_self {α : Type} (d : List (String × α)) (k : String) :
    dictGet (dictDel d k) k = none := by
  have h : List.find? (fun e => decide (e.1 = k))
      (List.filter (fun e => decide (e.1 ≠ k)) d) = none := by
    rw [List.find?_eq_none]
    intro e he
    have h2 := (List.mem_filter.mp he).2
    simpa using h2
  simp only [dictGet, dictDel, h]

/-- A document block consumes from the remaining budget exactly the tokens
it reports. -/
theorem document_step_avail (cap : TokenCap) (cfg : Int)
    (smart : String → Int → String) (doc : Option String) (a : Int) :
    (document_step cap cfg smart doc a).2.2.2 =
      a - (document_step cap cfg smart doc a).2.1 := by
  rcases doc with _ | d
  · simp [document_step]
  · simp only [document_step]
    split_ifs <;> simp

/-- The summary block consumes from the remaining budget exactly the
tokens it reports. -/
theorem summary_alloc_avail (cap : TokenCap) (cfg : Int)
    (s : Option String) (a : Int) :
    (summary_alloc cap cfg s a).2.2 = a - (summary_alloc cap cfg s a).2.1 := by
  simp only [summary_alloc]; split_ifs <;> simp

/-- When a document's count fits `min(configured cap, remaining budget)`,
no truncation runs and the block charges its exact count, which is at most
the configured cap. -/
theorem document_step_cap (cap : TokenCap) (cfg : Int)
    (smart : String → Int → String) (doc : Option String) (a : Int)
    (h : (count_tokens cap (doc.getD "") : Int) ≤ min cfg a) :
    (document_step cap cfg smart doc a).2.1 ≤ cfg := by
  rcases doc with _ | d
  · have h0 : (0 : Int) ≤ min cfg a := by simpa [count_tokens] using h
    simp only [document_step]
    show (0 : Int) ≤ cfg
    omega
  · simp only [Option.getD_some] at h
    simp only [document_step]
    by_cases hd : d = ""
    · subst hd
      rw [if_neg (by simp)]
      have h0 : (0 : Int) ≤ min cfg a := by simpa [count_tokens] using h
      show (0 : Int) ≤ cfg
      omega
    · rw [if_pos hd, if_neg (not_lt.mpr h)]
      show (count_tokens cap d : Int) ≤ cfg
      omega

/-- When the summary's count fits `min(configured cap, remaining budget)`,
no truncation runs and the block charges its exact count, which is at most
the configured cap. -/
theorem summary_alloc_cap (cap : TokenCap) (cfg : Int) (s : Option String)
    (a : Int)
    (h : (count_tokens cap (s.getD "") : Int) ≤ min cfg a) :
    (summary_alloc cap cfg s a).2.1 ≤ cfg := by
  rcases s with _ | x
  · have h0 : (0 : Int) ≤ min cfg a := by simpa [count_tokens] using h
    simp only [summary_alloc]
    rw [if_neg (by simp [optTruthy])]
    show (0 : Int) ≤ cfg
    omega
  · by_cases hx : x = ""
    · subst hx
      have h0 : (0 : Int) ≤ min cfg a := by simpa [count_tokens] using h
      simp only [summary_alloc]
      rw [if_neg (by simp [optTruthy])]
      show (0 : Int) ≤ cfg
      omega
    · simp only [Option.getD_some] at h
      simp only [summary_alloc, Option.getD_some]
      rw [if_pos (by simp [optTruthy, hx]), if_neg (not_lt.mpr h)]
      show (count_tokens cap x : Int) ≤ cfg
      omega

/-- The history component reported by `build_context` is bounded by
`max(history_min, total − the other five reported components)` (and by `0`
from below when that quantity is negative): the history cap used by the
code is `max(history_min, remaining budget)`, not `min`. -/
theorem build_context_history_bound (cap : TokenCap)
    (summarize : List Message → String) (cm : ContextManager)
    (sid sys inp : String) (jd res : Option String)
    (hist : Option (List Message)) (ex : Option String) :
    (build_context cap summarize cm sid sys inp jd res hist ex).result.token_usage.history ≤
      max (max cm.budget.history_min
        (cm.budget.total -
          ((build_context cap summarize cm sid sys inp jd res hist ex).result.token_usage.system_prompt +
           (build_context cap summarize cm sid sys inp jd res hist ex).result.token_usage.current_input +
           (build_context cap summarize cm sid sys inp jd res hist ex).result.token_usage.jd +
           (build_context cap summarize cm sid sys inp jd res hist ex).result.token_usage.resume +
           (build_context cap summarize cm sid sys inp jd res hist ex).result.token_usage.summary))) 0 := by
  simp only [build_context]
  have h1 := document_step_avail cap cm.budget.jd_max (smart_truncate_jd cap) jd
    (cm.budget.total - (count_tokens cap sys : Int) - (count_tokens cap inp : Int))
  have h2 := document_step_avail cap cm.budget.resume_max (smart_truncate_resume cap) res
    ((document_step cap cm.budget.jd_max (smart_truncate_jd cap) jd
      (cm.budget.total - (count_tokens cap sys : Int) - (count_tokens cap inp : Int))).2.2.2)
  have h3 := summary_alloc_avail cap cm.budget.summary_max
    ((summary_trigger summarize cm sid
        (listOr hist ((dictGet cm.session_history sid).getD []))
        (pyOr ex (dictGet cm.session_summaries sid))).1)
    ((document_step cap cm.budget.resume_max (smart_truncate_resume cap) res
      ((document_step cap cm.budget.jd_max (smart_truncate_jd cap) jd
        (cm.budget.total - (count_tokens cap sys : Int) - (count_tokens cap inp : Int))).2.2.2)).2.2.2)
  have h4 := fit_history_le cap
    (pyTakeLast (listOr hist ((dictGet cm.session_history sid).getD []))
      (cm.max_history_rounds * 2))
    (max cm.budget.history_min
      ((summary_alloc cap cm.budget.summary_max
        ((summary_trigger summarize cm sid
            (listOr hist ((dictGet cm.session_history sid).getD []))
            (pyOr ex (dictGet cm.session_summaries sid))).1)
        ((document_step cap cm.budget.resume_max (smart_truncate_resume cap) res
          ((document_step cap cm.budget.jd_max (smart_truncate_jd cap) jd
            (cm.budget.total - (count_tokens cap sys : Int) - (count_tokens cap inp : Int))).2.2.2)).2.2.2)).2.2))
  omega

/- ================= C1 ================= -/

/-- A token-counting capability under which every character counts 9000
tokens and truncation returns the text unchanged.  Both are legitimate
instances of the injected `count`/`truncate` interface: nothing in it
promises `count (truncate t m) ≤ m`, and the implemented
`llm_service.truncate_text` (a 4-characters-per-token slice plus an
appended ellipsis, never recounted) does not guarantee it either, so the
cap overflows below also exist for the real capability pair with
proportionally longer texts. -/
def capScaled : TokenCap :=
  { count := fun s => 9000 * s.length, truncate := fun s _ => s }

/-- A token-counting capability counting one token per character. -/
def capLen : TokenCap :=
  { count := fun s => s.length, truncate := fun s _ => s }

/-- C1 counterexample, refuting both conjuncts of the claim at one input.
Under the default budget, a one-character JD, resume and existing summary
each counting 9000 tokens all take their truncation paths, but the
truncated text is recharged at its recomputed count with no re-check
against the cap (the smart-truncation tail keeps `truncate p remaining`
whole whenever `remaining > 100`, and `summary` keeps `truncate`'s output
as-is), so the reported jd component is 9000 > jd_max = 4000, the resume
component 9000 > resume_max = 4000, the summary component
9000 > summary_max = 1000 — and their sum 27000 exceeds the total budget
16000. -/
theorem C1_counterexample :
    ({} : TokenBudget).total <
      usageSum (build_context capScaled (fun _ => "") {} "s" "" ""
        (some "Q") (some "Q") (some []) (some "Q")).result.token_usage ∧
    ({} : TokenBudget).jd_max <
      (build_context capScaled (fun _ => "") {} "s" "" ""
        (some "Q") (some "Q") (some []) (some "Q")).result.token_usage.jd ∧
    ({} : TokenBudget).resume_max <
      (build_context capScaled (fun _ => "") {} "s" "" ""
        (some "Q") (some "Q") (some []) (some "Q")).result.token_usage.resume ∧
    ({} : TokenBudget).summary_max <
      (build_context capScaled (fun _ => "") {} "s" "" ""
        (some "Q") (some "Q") (some []) (some "Q")).result.token_usage.summary := by
  decide

/-- C1 (amended): each allocation step consumes from the remaining budget
exactly what it reports and history is capped by
`max(history_min, remaining)`; hence whenever the remaining budget after
system prompt, current input, documents and summary is nonnegative and at
least `history_min`, the six reported component counts sum to at most the
configured total.  Each of the jd, resume and summary components is at
most its configured cap whenever its text's count fits
`min(configured cap, remaining budget at its step)` — it is then charged
its exact count with no truncation; when truncation does run, the count
is recomputed from the truncated text and not re-checked, and the bound
can fail (see the counterexample). -/
theorem C1_amended (cap : TokenCap) (summarize : List Message → String)
    (cm : ContextManager) (sid sys inp : String) (jd res : Option String)
    (hist : Option (List Message)) (ex : Option String) (u : TokenUsage)
    (hu : u = (build_context cap summarize cm sid sys inp jd res hist ex).result.token_usage) :
    (0 ≤ cm.budget.total -
        (u.system_prompt + u.current_input + u.jd + u.resume + u.summary) →
      cm.budget.history_min ≤ cm.budget.total -
        (u.system_prompt + u.current_input + u.jd + u.resume + u.summary) →
      usageSum u ≤ cm.budget.total) ∧
    ((count_tokens cap (jd.getD "") : Int) ≤
        min cm.budget.jd_max
          (cm.budget.total - u.system_prompt - u.current_input) →
      u.jd ≤ cm.budget.jd_max) ∧
    ((count_tokens cap (res.getD "") : Int) ≤
        min cm.budget.resume_max
          (cm.budget.total - u.system_prompt - u.current_input - u.jd) →
      u.resume ≤ cm.budget.resume_max) ∧
    ((count_tokens cap (((summary_trigger summarize cm sid
          (listOr hist ((dictGet cm.session_history sid).getD []))
          (pyOr ex (dictGet cm.session_summaries sid))).1).getD "") : Int) ≤
        min cm.budget.summary_max
          (cm.budget.total - u.system_prompt - u.current_input - u.jd -
            u.resume) →
      u.summary ≤ cm.budget.summary_max) := by
  subst hu
  refine ⟨?_, ?_, ?_, ?_⟩
  · intro h1 h2
    have hb := build_context_history_bound cap summarize cm sid sys inp jd res
      hist ex
    simp only [usageSum] at *
    omega
  · intro hjd
    simp only [build_context] at hjd ⊢
    exact document_step_cap cap cm.budget.jd_max (smart_truncate_jd cap) jd _ hjd
  · intro hres
    simp only [build_context] at hres ⊢
    rw [← document_step_avail cap cm.budget.jd_max (smart_truncate_jd cap) jd
      (cm.budget.total - (count_tokens cap sys : Int) -
        (count_tokens cap inp : Int))] at hres
    exact document_step_cap cap cm.budget.resume_max
      (smart_truncate_resume cap) res _ hres
  · intro hsum
    simp only [build_context] at hsum ⊢
    rw [← document_step_avail cap cm.budget.jd_max (smart_truncate_jd cap) jd
      (cm.budget.total - (count_tokens cap sys : Int) -
        (count_tokens cap inp : Int))] at hsum
    rw [← document_step_avail cap cm.budget.resume_max
      (smart_truncate_resume cap) res
      ((document_step cap cm.budget.jd_max (smart_truncate_jd cap) jd
        (cm.budget.total - (count_tokens cap sys : Int) -
          (count_tokens cap inp : Int))).2.2.2)] at hsum
    exact summary_alloc_cap cap cm.budget.summary_max _ _ hsum

/-- The usage report of a concrete `build_context` call (one token per
character, default configuration, three-character system prompt and input,
no documents, empty history). -/
def usage1 : TokenUsage :=
  (build_context capLen (fun _ => "") {} "sid" "sys" "inp" none none
    (some []) none).result.token_usage

/-- Witness for C1 (amended) at a concrete input: one-token-per-character
counting, default configuration, three-character system prompt and input,
no documents, empty history — all four hypotheses hold there and all four
conclusions follow. -/
theorem C1_amended_witness :
    (0 ≤ ({} : ContextManager).budget.total -
      (usage1.system_prompt + usage1.current_input + usage1.jd +
        usage1.resume + usage1.summary)) ∧
    (({} : ContextManager).budget.history_min ≤ ({} : ContextManager).budget.total -
      (usage1.system_prompt + usage1.current_input + usage1.jd +
        usage1.resume + usage1.summary)) ∧
    usageSum usage1 ≤ ({} : ContextManager).budget.total ∧
    usage1.jd ≤ ({} : ContextManager).budget.jd_max ∧
    usage1.resume ≤ ({} : ContextManager).budget.resume_max ∧
    usage1.summary ≤ ({} : ContextManager).budget.summary_max :=
  ⟨by decide, by decide,
    (C1_amended capLen (fun _ => "") {} "sid" "sys" "inp" none none (some [])
      none usage1 rfl).1 (by decide) (by decide),
    (C1_amended capLen (fun _ => "") {} "sid" "sys" "inp" none none (some [])
      none usage1 rfl).2.1 (by decide),
    (C1_amended capLen (fun _ => "") {} "sid" "sys" "inp" none none (some [])
      none usage1 rfl).2.2.1 (by decide),
    (C1_amended capLen (fun _ => "") {} "sid" "sys" "inp" none none (some [])
      none usage1 rfl).2.2.2 (by decide)⟩

/-- Evaluation of `handle_stream_response` on the flag-cancellation path. -/
theorem handle_stream_cancelled_eq (chunks : List String) (k : Nat) (sa : Bool)
    (pid eq : Option String) (h : k < chunks.length) :
    handle_stream_response chunks k sa pid eq =
      { saved_message := if hasNonWs (concatChunks (chunks.take k)) then
          some (concatChunks (chunks.take k)) else none
        cancelled_payload := some (concatChunks (chunks.take k))
        pending_save := none
        returned := false } := by
  have hs := streamLoop_cancelled chunks k "" h
  simp [handle_stream_response, hs]

/-- Evaluation of `handle_stream_response` on the completion path. -/
theorem handle_stream_completed_eq (chunks : List String) (k : Nat) (sa : Bool)
    (pid eq : Option String) (h : chunks.length ≤ k) :
    handle_stream_response chunks k sa pid eq =
      { saved_message := some (concatChunks chunks)
        cancelled_payload := none
        pending_save :=
          if sa = true ∧ optTruthy pid = true then
            match extract_optimized_answer (concatChunks chunks) with
            | some ans =>
              if ans ≠ "" ∧ optTruthy eq = true then
                some { question := eq.getD ""
                       transcript := ans
                       project_id := pid.getD "" }
              else none
            | none => none
          else none
        returned := true } := by
  have hs := streamLoop_completed chunks k "" h
  simp [handle_stream_response, hs]

/- ================= C2 ================= -/

/-- C2 counterexample: the cancel flag reads set after exactly one chunk
(`" "`) has been consumed and before chunk 2 is appended.  The reported
outcome is `generation_cancelled` carrying `" "` as partial content, but
no assistant message is persisted (`if full_content.strip():` skips
whitespace-only partials) — contradicting the claim that the persisted
message content equals the concatenation of the consumed chunks. -/
theorem C2_counterexample :
    (handle_stream_response [" ", "x"] 1 false none none).cancelled_payload =
      some " " ∧
    (handle_stream_response [" ", "x"] 1 false none none).saved_message =
      none := by decide

/-- C2 (amended): when the flag reads set after exactly `k` consumed chunks
and before chunk `k+1` is appended, the controller stops, reports
`generation_cancelled` carrying the concatenation of exactly those `k`
chunks, never computes a save payload, and persists that concatenation as
the assistant message if and only if it contains a non-whitespace
character (otherwise nothing is persisted). -/
theorem C2_amended (chunks : List String) (k : Nat) (sa : Bool)
    (pid eq : Option String) (h : k < chunks.length) :
    (handle_stream_response chunks k sa pid eq).cancelled_payload =
      some (concatChunks (chunks.take k)) ∧
    (handle_stream_response chunks k sa pid eq).saved_message =
      (if hasNonWs (concatChunks (chunks.take k)) then
        some (concatChunks (chunks.take k)) else none) ∧
    (handle_stream_response chunks k sa pid eq).pending_save = none ∧
    (handle_stream_response chunks k sa pid eq).returned = false := by
  rw [handle_stream_cancelled_eq chunks k sa pid eq h]
  exact ⟨rfl, rfl, rfl, rfl⟩

/-- Witness for C2 (amended): two chunks, flag set after the first. -/
theorem C2_amended_witness :
    1 < (["Hel", "lo"] : List String).length ∧
    (handle_stream_response ["Hel", "lo"] 1 false none none).cancelled_payload =
      some "Hel" :=
  ⟨by decide, (C2_amended ["Hel", "lo"] 1 false none none (by decide)).1⟩

/- ================= C3 ================= -/

/-- C3: in a guided-practice audio turn with a pending question and a
non-empty transcript, the `on_transcription` invocation precedes every
critique-stream invocation (`on_feedback_stream_start` and every
`on_feedback_chunk`) in the emitted event sequence. -/
theorem C3_transcript_before_critique (st : AgentState) (transcript : String)
    (chunks : List String) (hq : optTruthy st.current_question = true)
    (ht : transcript ≠ "") :
    ∀ (i : Nat) (e : Ev), (process_audio st transcript chunks).1[i]? = some e →
      (e = Ev.feedbackStart ∨ (∃ c, e = Ev.feedbackChunk c)) →
      ∃ j, j < i ∧
        (process_audio st transcript chunks).1[j]? = some Ev.transcription := by
  have hlist : (process_audio st transcript chunks).1 =
      Ev.transcription :: (analyze_answer st.session_id chunks).1 := by
    simp only [process_audio]
    rw [if_neg (by simp [hq]), if_neg ht]
    rfl
  intro i e hi he
  rw [hlist] at hi
  match i with
  | 0 =>
    simp only [List.getElem?_cons_zero, Option.some.injEq] at hi
    rcases he with he | ⟨c, he⟩ <;> subst he <;> simp at hi
  | n + 1 =>
    exact ⟨0, by omega, by rw [hlist]; simp⟩

/-- A concrete guided-practice state: audio input with a pending
question. -/
def stPractice : AgentState :=
  { session_id := some "s1"
    input_type := "audio"
    audio_data := some "QQ=="
    current_question := some "自我介绍" }

/-- Witness for C3 at a concrete turn: the critique-stream start event at
index 1 is preceded by the transcript event. -/
theorem C3_witness :
    optTruthy stPractice.current_question = true ∧ ("你好" : String) ≠ "" ∧
    ∃ j, j < 1 ∧
      (process_audio stPractice "你好" ["c1"]).1[j]? = some Ev.transcription :=
  ⟨by decide, by decide,
    C3_transcript_before_critique stPractice "你好" ["c1"] (by decide)
      (by decide) 1 Ev.feedbackStart (by decide) (Or.inl rfl)⟩

/- ================= C4 ================= -/

/-- C4: an audio-kind turn, or a turn arriving while the session is in
`interviewing` mode with a truthy pending question, is routed to the
guided-practice generator deterministically, with zero classifier
invocations — for every classifier capability (succeeding, failing, or
returning anything at all). -/
theorem C4_short_circuit (llm : Except Unit String)
    (parse : String → Option RoutingResult) (st : AgentState)
    (h : st.input_type = "audio" ∨
      (st.current_mode = "interviewing" ∧ optTruthy st.current_question = true)) :
    (route llm parse st).1.next_agent = "interviewer" ∧
    (route llm parse st).2 = 0 := by
  rcases h with h | ⟨h1, h2⟩
  · simp [route, h]
  · by_cases ha : st.input_type = "audio"
    · simp [route, ha]
    · simp [route, ha, h1, h2]

/-- Witness for C4: a concrete audio-kind state with an unavailable
classifier (the capability raises). -/
theorem C4_witness :
    (stPractice.input_type = "audio" ∨
      (stPractice.current_mode = "interviewing" ∧
        optTruthy stPractice.current_question = true)) ∧
    (route (Except.error ()) (fun _ => none) stPractice).1.next_agent =
      "interviewer" ∧
    (route (Except.error ()) (fun _ => none) stPractice).2 = 0 :=
  ⟨Or.inl rfl,
    (C4_short_circuit (Except.error ()) (fun _ => none) stPractice
      (Or.inl rfl)).1,
    (C4_short_circuit (Except.error ()) (fun _ => none) stPractice
      (Or.inl rfl)).2⟩

/- ================= C5 ================= -/

/-- The summarization trigger fires exactly once when the ledger exceeds
the round threshold, no truthy summary exists, and the overflow prefix is
non-empty. -/
theorem summary_trigger_fires (summarize : List Message → String)
    (cm : ContextManager) (sid : String) (H : List Message)
    (S0 : Option String) (h1 : H.length / 2 > cm.summary_trigger_rounds)
    (h2 : optTruthy S0 = false)
    (h3 : (pyDropLast H (cm.max_history_rounds * 2)).isEmpty = false) :
    summary_trigger summarize cm sid H S0 =
      (some (summarize (pyDropLast H (cm.max_history_rounds * 2))),
       dictSet cm.session_summaries sid
         (summarize (pyDropLast H (cm.max_history_rounds * 2))), 1) := by
  simp only [summary_trigger]
  rw [if_pos ⟨h1, by simp [h2]⟩, if_pos (by simp [h3])]

/-- The summarization trigger is skipped whenever a truthy summary is
already available. -/
theorem summary_trigger_skips (summarize : List Message → String)
    (cm : ContextManager) (sid : String) (H : List Message)
    (S0 : Option String) (h2 : optTruthy S0 = true) :
    summary_trigger summarize cm sid H S0 = (S0, cm.session_summaries, 0) := by
  simp only [summary_trigger]
  rw [if_neg (by simp [h2])]

/-- With a truthy summary available, the trigger makes zero summarization
calls. -/
theorem summary_trigger_calls_zero (summarize : List Message → String)
    (cm : ContextManager) (sid : String) (H : List Message)
    (S0 : Option String) (h2 : optTruthy S0 = true) :
    (summary_trigger summarize cm sid H S0).2.2 = 0 := by
  rw [summary_trigger_skips summarize cm sid H S0 h2]

/-- A 22-turn ledger (11 rounds), exceeding the default trigger of 10. -/
def hist22 : List Message :=
  (List.range 22).map (fun i =>
    { role := if i % 2 = 0 then "user" else "assistant"
      content := "a"
      token_count := 1 })

/-- C5 counterexample: when the summarization capability fails (the code
degrades a failure to the empty string, which it caches), the first
`build_context` call performs one summarization call — and so does the
second call for the same session, because the cached empty summary is not
truthy.  The claim's "a second call performs no further summarization
call" fails as stated. -/
theorem C5_counterexample :
    (build_context capLen (fun _ => "") {} "sid" "sys" "inp" none none
      (some hist22) none).summary_calls = 1 ∧
    (build_context capLen (fun _ => "")
      (build_context capLen (fun _ => "") {} "sid" "sys" "inp" none none
        (some hist22) none).state
      "sid" "sys" "inp" none none (some hist22) none).summary_calls = 1 := by
  decide

/-- C5 (amended): with a ledger over the round threshold, no usable
(truthy) summary, and a non-empty overflow prefix, the first build performs
exactly one summarization call and caches its result; provided that result
is non-empty, a second build for the same session reuses the cache and
performs no further summarization call. -/
theorem C5_amended (cap : TokenCap) (summarize : List Message → String)
    (cm : ContextManager) (sid sys inp : String) (jd res : Option String)
    (hist : Option (List Message)) (ex : Option String)
    (hsum : optTruthy (pyOr ex (dictGet cm.session_summaries sid)) = false)
    (htr : (listOr hist ((dictGet cm.session_history sid).getD [])).length / 2 >
      cm.summary_trigger_rounds)
    (hold : (pyDropLast (listOr hist ((dictGet cm.session_history sid).getD []))
      (cm.max_history_rounds * 2)).isEmpty = false) :
    (build_context cap summarize cm sid sys inp jd res hist ex).summary_calls = 1 ∧
    dictGet (build_context cap summarize cm sid sys inp jd res hist ex).state.session_summaries sid =
      some (summarize (pyDropLast
        (listOr hist ((dictGet cm.session_history sid).getD []))
        (cm.max_history_rounds * 2))) ∧
    (summarize (pyDropLast (listOr hist ((dictGet cm.session_history sid).getD []))
        (cm.max_history_rounds * 2)) ≠ "" →
      (build_context cap summarize
        (build_context cap summarize cm sid sys inp jd res hist ex).state
        sid sys inp jd res hist none).summary_calls = 0) := by
  have hf := summary_trigger_fires summarize cm sid
    (listOr hist ((dictGet cm.session_history sid).getD []))
    (pyOr ex (dictGet cm.session_summaries sid)) htr hsum hold
  refine ⟨?_, ?_, ?_⟩
  · simp only [build_context, hf]
  · simp only [build_context, hf]
    exact dictGet_set_self _ _ _
  · intro hne
    simp only [build_context, hf]
    apply summary_trigger_calls_zero
    rw [dictGet_set_self]
    simp [pyOr, optTruthy, hne]

/-- Witness for C5 (amended): default configuration, the 22-turn ledger,
and a summarizer that returns a non-empty summary. -/
theorem C5_amended_witness :
    (optTruthy (pyOr none (dictGet ({} : ContextManager).session_summaries "sid")) = false) ∧
    ((listOr (some hist22) ((dictGet ({} : ContextManager).session_history "sid").getD [])).length / 2 >
      ({} : ContextManager).summary_trigger_rounds) ∧
    (build_context capLen (fun _ => "SUM") {} "sid" "sys" "inp" none none
      (some hist22) none).summary_calls = 1 ∧
    (build_context capLen (fun _ => "SUM")
      (build_context capLen (fun _ => "SUM") {} "sid" "sys" "inp" none none
        (some hist22) none).state
      "sid" "sys" "inp" none none (some hist22) none).summary_calls = 0 :=
  ⟨by decide, by decide,
    (C5_amended capLen (fun _ => "SUM") {} "sid" "sys" "inp" none none
      (some hist22) none (by decide) (by decide) (by decide)).1,
    (C5_amended capLen (fun _ => "SUM") {} "sid" "sys" "inp" none none
      (some hist22) none (by decide) (by decide) (by decide)).2.2 (by decide)⟩

/- ================= C6 ================= -/

/-- C6: an advisory turn is save-eligible iff its intent is
`answer_optimization` or `script_writing`; a flag-cancelled stream never
produces a pending-save payload; a payload produced on completion implies
the stream completed with `save_asset` set and the answer text extracted
from the full output; and extraction tries the `<optimized>` pair first,
falling back to `<script>` only when the former does not match. -/
theorem C6_save_eligibility :
    (∀ st : AgentState, (chat_process st).save_asset = true ↔
      (st.intent = some "answer_optimization" ∨
       st.intent = some "script_writing")) ∧
    (∀ (chunks : List String) (k : Nat) (sa : Bool) (pid eq : Option String),
      k < chunks.length →
      (handle_stream_response chunks k sa pid eq).pending_save = none) ∧
    (∀ (chunks : List String) (k : Nat) (sa : Bool) (pid eq : Option String)
      (ps : PendingSave),
      (handle_stream_response chunks k sa pid eq).pending_save = some ps →
      chunks.length ≤ k ∧ sa = true ∧
      extract_optimized_answer (concatChunks chunks) = some ps.transcript ∧
      ps.transcript ≠ "" ∧ eq = some ps.question) ∧
    (∀ (content s : String),
      extractBetween "<optimized>" "</optimized>" content = some s →
      extract_optimized_answer content = some s) ∧
    (∀ content : String,
      extractBetween "<optimized>" "</optimized>" content = none →
      extract_optimized_answer content =
        extractBetween "<script>" "</script>" content) := by
  refine ⟨?_, ?_, ?_, ?_, ?_⟩
  · intro st
    rcases hst : st.intent with _ | s
    · simp [chat_process, hst]
    · by_cases hao : s = "answer_optimization"
      · subst hao; simp [chat_process, hst]
      · by_cases hsw : s = "script_writing"
        · subst hsw; simp [chat_process, hst]
        · simp only [chat_process, hst]
          split_ifs <;> simp_all
  · intro chunks k sa pid eq h
    rw [handle_stream_cancelled_eq chunks k sa pid eq h]
  · intro chunks k sa pid eq ps h
    by_cases hk : k < chunks.length
    · rw [handle_stream_cancelled_eq chunks k sa pid eq hk] at h
      simp at h
    · have hk2 : chunks.length ≤ k := by omega
      rw [handle_stream_completed_eq chunks k sa pid eq hk2] at h
      refine ⟨hk2, ?_⟩
      dsimp only at h
      by_cases hsa : sa = true ∧ optTruthy pid = true
      · rw [if_pos hsa] at h
        rcases hx : extract_optimized_answer (concatChunks chunks) with _ | ans
        · rw [hx] at h; simp at h
        · rw [hx] at h
          dsimp only at h
          by_cases hq : ans ≠ "" ∧ optTruthy eq = true
          · rw [if_pos hq] at h
            rw [Option.some.injEq] at h
            subst h
            refine ⟨hsa.1, rfl, hq.1, ?_⟩
            rcases heq : eq with _ | q
            · rw [heq] at hq; simp [optTruthy] at hq
            · simp
          · rw [if_neg hq] at h; simp at h
      · rw [if_neg hsa] at h; simp at h
  · intro content s h
    simp [extract_optimized_answer, h]
  · intro content h
    simp [extract_optimized_answer, h]

/-- Witness for C6 at concrete inputs: an `answer_optimization` turn is
save-eligible, a cancelled stream yields no payload, and extraction picks
the `<optimized>` segment. -/
theorem C6_witness :
    (chat_process { intent := some "answer_optimization" }).save_asset = true ∧
    (handle_stream_response ["a", "b"] 1 true (some "p") (some "q")).pending_save =
      none ∧
    extract_optimized_answer "x<optimized>Y</optimized>" = some "Y" :=
  ⟨(C6_save_eligibility.1 { intent := some "answer_optimization" }).mpr
      (Or.inl rfl),
    C6_save_eligibility.2.1 ["a", "b"] 1 true (some "p") (some "q") (by decide),
    C6_save_eligibility.2.2.2.1 "x<optimized>Y</optimized>" "Y" (by decide)⟩

/- ================= C7 ================= -/

/-- C7: malformed structured output is recovered locally.  A classifier
reply that fails JSON parsing routes the turn to the advisory generator
with the generic intent and no extracted question; a critique text missing
the `<improvements>` tag parses to an empty `improvements` field with no
error. -/
theorem C7_parse_failure_defaults :
    (∀ (parse : String → Option RoutingResult) (response : String)
      (st : AgentState),
      st.input_type ≠ "audio" →
      ¬ (st.current_mode = "interviewing" ∧ optTruthy st.current_question = true) →
      parse (stripFences response) = none →
      (route (Except.ok response) parse st).1.next_agent = "chat" ∧
      (route (Except.ok response) parse st).1.intent = some "general" ∧
      (route (Except.ok response) parse st).1.extracted_question = none ∧
      (route (Except.ok response) parse st).1.current_mode = "chatting") ∧
    (∀ response : String,
      splitFirst "<improvements>".data response.data = none →
      (parse_xml_feedback response).improvements = "") := by
  constructor
  · intro parse response st h1 h2 hp
    have hf : analyze_intent parse response = fallbackRouting := by
      simp [analyze_intent, hp]
    simp only [route]
    rw [if_neg h1, if_neg h2]
    simp [hf, fallbackRouting]
  · intro response h
    simp [parse_xml_feedback, extractBetween, h]

/-- Witness for C7: a parser that always fails on an idle text turn, and a
critique text with no `<improvements>` tag. -/
theorem C7_witness :
    (({} : AgentState).input_type ≠ "audio") ∧
    ((fun _ => (none : Option RoutingResult)) (stripFences "not json") = none) ∧
    (route (Except.ok "not json") (fun _ => none) {}).1.next_agent = "chat" ∧
    (parse_xml_feedback "<analysis>A</analysis>").improvements = "" :=
  ⟨by decide, rfl,
    (C7_parse_failure_defaults.1 (fun _ => none) "not json" {} (by decide)
      (by decide) rfl).1,
    C7_parse_failure_defaults.2 "<analysis>A</analysis>" (by decide)⟩

/- ================= C8 ================= -/

/-- C8 counterexample: an audio turn with pending question `自我介绍` whose
transcription yields no transcript ends with an error outcome, but the
pending question is NOT cleared — `_process_audio` returns the state with
`current_question` unchanged, and the caller's
`result.get("current_question") or cq` keeps it — contradicting the
claim that the pending question is reset. -/
theorem C8_counterexample :
    (process_audio stPractice "" []).2.response_type = "error" ∧
    (process_audio stPractice "" []).2.current_question = some "自我介绍" ∧
    new_question_update (process_audio stPractice "" []).2.current_question
      stPractice.current_question = some "自我介绍" := by decide

/-- C8 (amended): an audio turn with a truthy pending question and an
empty transcript emits no events, ends with an error outcome, and leaves
the pending question unchanged (preserved for the retry), both in the
generator's returned state and after the caller's pending-question
update. -/
theorem C8_amended (st : AgentState) (transcript : String)
    (chunks : List String) (hq : optTruthy st.current_question = true)
    (ht : transcript = "") :
    (process_audio st transcript chunks).1 = [] ∧
    (process_audio st transcript chunks).2.response_type = "error" ∧
    (process_audio st transcript chunks).2.current_question =
      st.current_question ∧
    new_question_update (process_audio st transcript chunks).2.current_question
      st.current_question = st.current_question := by
  subst ht
  simp only [process_audio]
  rw [if_neg (by simp [hq])]
  simp [new_question_update, hq]

/-- Witness for C8 (amended) at the concrete practice state. -/
theorem C8_amended_witness :
    optTruthy stPractice.current_question = true ∧ ("" : String) = "" ∧
    (process_audio stPractice "" []).2.current_question =
      stPractice.current_question :=
  ⟨by decide, rfl,
    (C8_amended stPractice "" [] (by decide) rfl).2.2.1⟩

/- ================= C9 ================= -/

/-- C9: for every starting registry, session, set of turn handlers and
turn outcome (completion, raised exception, or cancellation), the
callbacks registered at the start of `process_and_respond` are gone when
its processing ends — no handler remains registered for the session. -/
theorem C9_handlers_unregistered {α : Type} (reg : Registry α) (sid : String)
    (cbT cbS cbC cbE : α) (outcome : TurnOutcome) (name : String) :
    get_callback (process_and_respond_registry reg sid cbT cbS cbC cbE outcome)
      sid name = none := by
  cases outcome <;>
  · simp only [process_and_respond_registry, unregister_callback]
    split_ifs with h h2
    · simp [optTruthy] at h2
    · simp only [get_callback]
      rw [dictGet_del_self]
      simp [dictGet]
    · exfalso
      apply h
      rw [show ∀ (r : Registry α) (n : String) (cb : α),
          register_callback r sid n cb = dictSet r sid
            (dictSet ((dictGet r sid).getD []) n cb) from fun _ _ _ => rfl]
      rw [dictGet_set_self]
      rfl

/- ================= C10 ================= -/

/-- C10: `invoke_callback` never propagates an exception (it is a total
function into `Bool`): it returns `true` exactly when a registered handler
runs to completion, and `false` both when no handler is registered (a
no-op, not an error) and when the handler itself raises. -/
theorem C10_invoke_never_raises {π : Type} (reg : Registry (Handler π))
    (sid name : String) (p : π) :
    (invoke_callback reg sid name p = true ↔
      ∃ cb, get_callback reg sid name = some cb ∧ cb p = Except.ok ()) ∧
    (get_callback reg sid name = none →
      invoke_callback reg sid name p = false) := by
  have hnone : get_callback reg sid name = none →
      invoke_callback reg sid name p = false := by
    intro h
    unfold invoke_callback
    rw [h]
  have hsome : ∀ cb, get_callback reg sid name = some cb →
      invoke_callback reg sid name p =
        (match cb p with
         | Except.ok _ => true
         | Except.error _ => false) := by
    intro cb h
    unfold invoke_callback
    rw [h]
  refine ⟨⟨?_, ?_⟩, hnone⟩
  · intro h
    rcases hg : get_callback reg sid name with _ | cb
    · rw [hnone hg] at h; simp at h
    · rw [hsome cb hg] at h
      rcases hc : cb p with e | u
      · rw [hc] at h; simp at h
      · cases u
        exact ⟨cb, rfl, hc⟩
  · rintro ⟨cb, hg, hok⟩
    rw [hsome cb hg, hok]

/-- A registry holding one completing handler. -/
def regOk : Registry (Handler Nat) :=
  register_callback [] "s" "ev" (fun _ => Except.ok ())

/-- Witness for C10: the completing handler yields `true`; the empty
registry yields `false`. -/
theorem C10_witness :
    invoke_callback regOk "s" "ev" 3 = true ∧
    invoke_callback ([] : Registry (Handler Nat)) "s" "ev" 3 = false :=
  ⟨(C10_invoke_never_raises regOk "s" "ev" 3).1.mpr
      ⟨fun _ => Except.ok (), rfl, rfl⟩,
    (C10_invoke_never_raises ([] : Registry (Handler Nat)) "s" "ev" 3).2 rfl⟩

end Backend
